import Mathlib

/-
Verification of the NewsScrapper crawl engine
(src/app/backend/scrape/news_scrapper.py) against its design description.

The engine's pure decision logic is embedded shallowly: external
collaborators (browser navigation, the LLM-backed classification service,
the PostgreSQL store, the Bloom-filter library) are represented by explicit
data so the crawl loop, the visited ledger, the site-config store, the
credential back-fill, and the login resolution chain become total Lean
functions that can be evaluated and reasoned about.
-/

set_option autoImplicit false
set_option maxRecDepth 4000

/-- Outcome of a call into an external collaborator: `ok` carries the
returned value; `err` models a raised exception. -/
inductive Res (α : Type) where
  | ok (a : α) : Res α
  | err : Res α
  deriving DecidableEq

/-- A link record as returned by extract_content(page, output_type="links"):
a mapping with an href and an anchor text (the seed code reads link['href'],
so each element is a record, not a bare string). -/
structure Link where
  href : String
  anchorText : String
  deriving DecidableEq

/-- Value of response.likely_urls from select_likely_URLS: the crawl code
branches on isinstance(lucky_urls, list); a non-list value is either a single
string or None (`null`). -/
inductive Suggestion where
  | many (urls : List String) : Suggestion
  | one (u : String) : Suggestion
  | null : Suggestion
  deriving DecidableEq

/-- Python equality between a link record (a dict) and a string: `==` across
these two types is always False in Python. -/
def linkEqStr (_l : Link) (_u : String) : Bool := false

/-- Membership test `url in new_links` performed by the crawl loop
(news_scrapper.py line 299), where new_links is the raw list of link
records. -/
def linksContains (links : List Link) (u : String) : Bool :=
  links.any (fun l => linkEqStr l u)

/-- Seed-page hallucination filter, news_scrapper.py lines 228-235: hrefs are
projected out first (`url_list = [link['href'] for link in urls]`) and the
suggested URLs are filtered against that string list. -/
def seedFilter (s : Suggestion) (links : List Link) : List String :=
  let url_list := links.map (fun l => l.href)
  match s with
  | Suggestion.many l => l.filter (fun u => url_list.contains u)
  | Suggestion.one u => if url_list.contains u then [u] else []
  | Suggestion.null => []

/-- Crawl-loop hallucination filter, news_scrapper.py lines 295-301: the
suggested URLs are tested for membership in the raw link-record list
new_links itself (`url for url in new_lucky_urls if url in new_links`). -/
def loopFilter (s : Suggestion) (links : List Link) : List String :=
  match s with
  | Suggestion.many l => l.filter (fun u => linksContains links u)
  | Suggestion.one u => if linksContains links u then [u] else []
  | Suggestion.null => []

/-- Result object of classify_and_extract_news_article; `classification` is
the flag that is persisted as is_article. -/
structure ArticleResp where
  classification : Bool
  title : String
  body : String
  deriving DecidableEq

/-- Deterministic abstraction of one crawl session's collaborators: per URL,
the outcome of the classification try-block (lines 270-283; `ok none` models
a falsy response returned without raising), the outcome of select_likely_URLS
(lines 292-308), the links extracted from the rendered page, and the verdict
of the membership cache (the Bloom filter object is fixed for the whole
session, so it appears as a fixed predicate). -/
structure World where
  classify : String → Res (Option ArticleResp)
  suggest : String → Res Suggestion
  links : String → List Link
  visited : String → Bool

/-- Mutable state of the crawl loop: the FIFO frontier `to_visit`, the
result accumulator `responses`, and the session's visited-accumulator
`newly_visited` that is flushed to the ledger at the end of scrape(). -/
structure CrawlState where
  to_visit : List String
  responses : List (String × Option ArticleResp)
  newly_visited : List (String × Option Bool)
  deriving DecidableEq

/-- Body of the while-loop of scrape() (news_scrapper.py lines 263-308) for a
URL `u` that has already been popped from the frontier: skip if the cache
marks it visited; otherwise run the classification try-block (on success
append to responses and to the visited-accumulator, on a falsy result append
only the accumulator entry with a null classification, on an exception append
nothing), then run the link-selection try-block, which on success extends the
frontier with the filtered suggestions and on an exception leaves it alone. -/
def crawlStep (w : World) (u : String) (st : CrawlState) : CrawlState :=
  if w.visited u then st
  else
    let st1 :=
      match w.classify u with
      | Res.err => st
      | Res.ok none => { st with newly_visited := st.newly_visited ++ [(u, none)] }
      | Res.ok (some r) =>
          { st with
            responses := st.responses ++ [(u, some r)],
            newly_visited := st.newly_visited ++ [(u, some r.classification)] }
    match w.suggest u with
    | Res.err => st1
    | Res.ok s => { st1 with to_visit := st1.to_visit ++ loopFilter s (w.links u) }

/-- The while-loop of scrape() (line 262): run while the frontier is
non-empty and the number of accumulated responses is below the page quota
`Q`. `fuel` bounds the number of iterations so the function is total; the
loop itself has no such bound. -/
def crawlLoop (w : World) (Q : Nat) : Nat → CrawlState → CrawlState
  | 0, st => st
  | fuel + 1, st =>
    match st.to_visit with
    | [] => st
    | u :: rest =>
      if st.responses.length < Q then
        crawlLoop w Q fuel (crawlStep w u { st with to_visit := rest })
      else st

/-- scrape() with crawl=True (news_scrapper.py lines 211-311), navigation
steps assumed to return. `Res.err` from the seed suggestion models the
uncaught exception of line 225. `Res.err` from the seed classification also
aborts scrape(): the exception of line 250 is caught, but line 260 then
evaluates `response.classification` with `response` still bound to the
(truthy) suggestion object, which has no classification attribute, so an
AttributeError escapes. On a normal seed, the seed response is appended to
the result list unconditionally (line 252) before the loop starts. -/
def scrape (w : World) (root : String) (Q fuel : Nat) : Except Unit CrawlState :=
  match w.suggest root with
  | Res.err => Except.error ()
  | Res.ok s0 =>
    match w.classify root with
    | Res.err => Except.error ()
    | Res.ok resp0 =>
      Except.ok (crawlLoop w Q fuel
        { to_visit := seedFilter s0 (w.links root),
          responses := [(root, resp0)],
          newly_visited := [(root, resp0.map (fun r => r.classification))] })

/-- One tier of the scalable Bloom filter: a hash family and the bits set so
far, modelled as the list of inserted hash values. -/
structure BloomTier where
  hash : String → List Nat
  bits : List Nat
  count : Nat

/-- Insert a URL into a tier: set all of its hash bits. -/
def tierAdd (t : BloomTier) (u : String) : BloomTier :=
  { t with bits := t.bits ++ t.hash u, count := t.count + 1 }

/-- Tier membership: every hash bit of `u` is set. -/
def tierMem (t : BloomTier) (u : String) : Bool :=
  (t.hash u).all (fun h => t.bits.contains h)

/-- ScalableBloomFilter (pybloom_live), abstracted: a chain of tiers whose
head is the currently filling tier; once the head reaches `capacity` a fresh
tier is opened, so growth never unsets a bit. `mkHash i` is the hash family
used by tier `i`; keeping it abstract makes every proved property independent
of the concrete hash functions. -/
structure SBF where
  tiers : List BloomTier
  capacity : Nat
  mkHash : Nat → String → List Nat

/-- Add an element to the scalable filter (`self.visited_urls.add(url)`). -/
def sbfAdd (f : SBF) (u : String) : SBF :=
  match f.tiers with
  | [] => { f with tiers := [tierAdd ⟨f.mkHash 0, [], 0⟩ u] }
  | t :: ts =>
    if t.count < f.capacity then { f with tiers := tierAdd t u :: ts }
    else { f with tiers := tierAdd ⟨f.mkHash (ts.length + 2), [], 0⟩ u :: t :: ts }

/-- Scalable-filter membership (`url in self.visited_urls`): some tier holds
all the hash bits of `u`. -/
def sbfMem (f : SBF) (u : String) : Bool :=
  f.tiers.any (fun t => tierMem t u)

/-- is_url_visited, news_scrapper.py lines 553-555: a purely in-memory
probabilistic check against the session's filter. -/
def is_url_visited (f : SBF) (u : String) : Bool := sbfMem f u

/-- Membership cache built in __init__ (lines 58-65): start from an empty
filter and add the URL of every (url, is_article) record in the ledger
snapshot returned by get_visited_urls for the current domain. -/
def buildVisitedCache (cap : Nat) (mk : Nat → String → List Nat)
    (snapshot : List (String × Option Bool)) : SBF :=
  snapshot.foldl (fun f p => sbfAdd f p.1) ⟨[], cap, mk⟩

/-- Row of the visited_urls table
(url TEXT, domain TEXT, visit_date TIMESTAMP, is_article BOOLEAN,
PRIMARY KEY (url, domain)). -/
structure VisitedRow where
  url : String
  domain : String
  visit_date : Nat
  is_article : Option Bool
  deriving DecidableEq

/-- Test for the (url, domain) primary key in the ledger. -/
def hasKey (l : List VisitedRow) (u d : String) : Bool :=
  l.any (fun r => r.url == u && r.domain == d)

/-- One INSERT ... ON CONFLICT (url, domain) DO NOTHING. -/
def insertIgnore (l : List VisitedRow) (r : VisitedRow) : List VisitedRow :=
  if hasKey l r.url r.domain then l else l ++ [r]

/-- The batch insert of add_visited_urls (lines 379-397): one
conflict-ignoring insert per (url, is_article) pair, all sharing the current
domain and one timestamp taken at call time. -/
def applyBatch (l : List VisitedRow) (d : String) (now : Nat)
    (batch : List (String × Option Bool)) : List VisitedRow :=
  batch.foldl (fun acc p => insertIgnore acc ⟨p.1, d, now, p.2⟩) l

/-- Fallible store interaction inside the `try` of add_visited_urls:
`store_fails = true` models any exception raised while connecting or
executing; the single commit happens at the end, so nothing is persisted in
that case. -/
def storeInsertBatch (store_fails : Bool) (l : List VisitedRow) (d : String)
    (now : Nat) (batch : List (String × Option Bool)) :
    Except String (List VisitedRow) :=
  if store_fails then Except.error "db error"
  else Except.ok (applyBatch l d now batch)

/-- add_visited_urls, news_scrapper.py lines 356-402: an empty batch returns
before any store interaction; otherwise the store interaction runs inside a
try whose except clause only logs, so the method always returns normally,
with the ledger unchanged when the store failed. The second component
records whether the store was touched. -/
def add_visited_urls (store_fails : Bool) (l : List VisitedRow) (d : String)
    (now : Nat) (batch : List (String × Option Bool)) :
    List VisitedRow × Bool :=
  if batch.isEmpty then (l, false)
  else
    match storeInsertBatch store_fails l d now batch with
    | Except.ok l2 => (l2, true)
    | Except.error _ => (l, true)

/-- Row of the websites table (url TEXT PRIMARY KEY, login_url, username,
password, username_selector, password_selector, submit_button_selector,
last_updated). -/
structure WebsiteRow where
  url : String
  login_url : Option String
  username : Option String
  password : Option String
  username_selector : Option String
  password_selector : Option String
  submit_button_selector : Option String
  last_updated : Nat
  deriving DecidableEq

/-- The six per-domain config attributes carried by the scraper object; each
may be absent (None). Used both as the upsert payload of add_website and as
the caller-provided constructor arguments. -/
structure ConfigPatch where
  login_url : Option String
  username : Option String
  password : Option String
  username_selector : Option String
  password_selector : Option String
  submit_button_selector : Option String
  deriving DecidableEq

/-- SQL COALESCE(:param, column): the bound parameter when non-null,
otherwise the stored column value. -/
def coalesce (p old : Option String) : Option String :=
  match p with
  | some v => some v
  | none => old

/-- The UPDATE branch of add_website (lines 458-481): every config column is
COALESCE-merged with the bound parameter and last_updated is refreshed. -/
def mergeRow (r : WebsiteRow) (p : ConfigPatch) (now : Nat) : WebsiteRow :=
  { url := r.url,
    login_url := coalesce p.login_url r.login_url,
    username := coalesce p.username r.username,
    password := coalesce p.password r.password,
    username_selector := coalesce p.username_selector r.username_selector,
    password_selector := coalesce p.password_selector r.password_selector,
    submit_button_selector := coalesce p.submit_button_selector r.submit_button_selector,
    last_updated := now }

/-- The INSERT branch of add_website (lines 482-501): a fresh row holding
exactly the provided values, last_updated defaulted to the current time. -/
def newRow (d : String) (p : ConfigPatch) (now : Nat) : WebsiteRow :=
  { url := d,
    login_url := p.login_url,
    username := p.username,
    password := p.password,
    username_selector := p.username_selector,
    password_selector := p.password_selector,
    submit_button_selector := p.submit_button_selector,
    last_updated := now }

/-- SELECT * FROM websites WHERE url = :domain (used by add_website and
_get_stored_domain_info); url is the primary key. -/
def findWebsite (ws : List WebsiteRow) (d : String) : Option WebsiteRow :=
  ws.find? (fun r => r.url == d)

/-- add_website, news_scrapper.py lines 445-504: update with COALESCE merge
when a row for the domain exists, plain insert otherwise. -/
def add_website (ws : List WebsiteRow) (d : String) (p : ConfigPatch)
    (now : Nat) : List WebsiteRow :=
  match findWebsite ws d with
  | some _ => ws.map (fun r => if r.url == d then mergeRow r p now else r)
  | none => ws ++ [newRow d p now]

/-- Python truthiness of an optional string attribute: None and the empty
string are falsy. -/
def truthyStr : Option String → Bool
  | none => false
  | some s => !(s == "")

/-- One attribute of _update_attributes_from_stored_values (lines 545-551):
`if not current_value and stored_value: setattr(self, attr, stored_value)`. -/
def backfillAttr (current stored : Option String) : Option String :=
  if !truthyStr current && truthyStr stored then stored else current

/-- _update_attributes_from_stored_values, news_scrapper.py lines 534-551:
each of the six credential/selector attributes is back-filled independently
from the stored row. -/
def updateAttributesFromStoredValues (self stored : ConfigPatch) : ConfigPatch :=
  { login_url := backfillAttr self.login_url stored.login_url,
    username := backfillAttr self.username stored.username,
    password := backfillAttr self.password stored.password,
    username_selector := backfillAttr self.username_selector stored.username_selector,
    password_selector := backfillAttr self.password_selector stored.password_selector,
    submit_button_selector :=
      backfillAttr self.submit_button_selector stored.submit_button_selector }

/-- Inputs of the login resolution chain: the (possibly back-filled)
constructor attributes, the outcomes of the two detection collaborators
(`err` models a raised exception; for the login URL, `ok none` models a
non-string response), and the cookie set held by the browser context after
the login form has been submitted and navigation has settled. -/
structure LoginEnv where
  login_url : Option String
  username : Option String
  password : Option String
  username_selector : Option String
  password_selector : Option String
  submit_button_selector : Option String
  detect_login_url_outcome : Res (Option String)
  detect_selectors_outcome : Res (Option String × Option String × Option String)
  cookies : List String

/-- _can_authenticate (lines 107-109): both username and password are not
None (identity check, not truthiness). -/
def canAuthenticate (e : LoginEnv) : Bool :=
  e.username.isSome && e.password.isSome

/-- _initialize_login (lines 111-138): resolve the login URL (detection when
the attribute is falsy; a caught detection exception or a non-string result
means giving up), then the three selectors (detection when any is falsy; a
caught exception or any empty detected selector means giving up). Returns
whether login() should be attempted; False is the anonymous fallback. -/
def initLogin (e : LoginEnv) : Bool :=
  let lu : Option (Option String) :=
    if truthyStr e.login_url then some e.login_url
    else
      match e.detect_login_url_outcome with
      | Res.err => none
      | Res.ok v => some v
  match lu with
  | none => false
  | some none => false
  | some (some _) =>
    if truthyStr e.username_selector && truthyStr e.password_selector &&
        truthyStr e.submit_button_selector then true
    else
      match e.detect_selectors_outcome with
      | Res.err => false
      | Res.ok (a, b, c) => truthyStr a && truthyStr b && truthyStr c

/-- _verify_session (lines 201-209): after the form submission settles, an
empty cookie set raises; otherwise logged_in is set. -/
def verifySession (cookies : List String) : Except String Unit :=
  if cookies.isEmpty then Except.error "No session cookies found after login"
  else Except.ok ()

/-- login() (lines 181-199) with the navigation and form-fill steps assumed
to return: the observable outcome is that of _verify_session. -/
def loginStep (e : LoginEnv) : Except String Unit :=
  verifySession e.cookies

/-- The authentication phase of __init__ (lines 99-104): attempt login only
when credentials are present and _initialize_login succeeded; login() is not
wrapped in any try, so its exception propagates out of construction. Returns
the logged_in flag on normal completion. -/
def constructAuth (e : LoginEnv) : Except String Bool :=
  if canAuthenticate e then
    if initLogin e then
      match loginStep e with
      | Except.error m => Except.error m
      | Except.ok () => Except.ok true
    else Except.ok false
  else Except.ok false

/-- Sample article response used by the concrete crawl worlds below. -/
def sampleResp : ArticleResp := ⟨true, "t", "b"⟩

/-- Concrete world for the C1 evaluation: one dequeued page whose observed
links contain exactly the suggested URL. -/
def w1Links : List Link := [⟨"https://ex.com/a", "t"⟩]

/-- Concrete world for the quota theorems: the seed "root" links to page "a",
which the collaborator suggests; page "a" yields no further suggestions. -/
def w2W : World :=
  { classify := fun _ => Res.ok (some sampleResp),
    suggest := fun u =>
      if u == "root" then Res.ok (Suggestion.many ["a"]) else Res.ok Suggestion.null,
    links := fun u => if u == "root" then [⟨"a", "t"⟩] else [],
    visited := fun _ => false }

/-- Concrete world for the quota counterexample: the seed classifies
successfully and suggests nothing. -/
def w2c : World :=
  { classify := fun _ => Res.ok (some sampleResp),
    suggest := fun _ => Res.ok Suggestion.null,
    links := fun _ => [],
    visited := fun _ => false }

/-- Concrete world for the C3 counterexample: classification of page "a"
raises, classification of page "b" succeeds, no further suggestions. -/
def w3c : World :=
  { classify := fun u => if u == "a" then Res.err else Res.ok (some sampleResp),
    suggest := fun _ => Res.ok Suggestion.null,
    links := fun _ => [],
    visited := fun _ => false }

/-- Concrete world for the C4 theorems: every page classifies successfully,
suggests nothing, and the session cache marks nothing visited. -/
def w4c : World :=
  { classify := fun _ => Res.ok (some sampleResp),
    suggest := fun _ => Res.ok Suggestion.null,
    links := fun _ => [],
    visited := fun _ => false }

/-! Theorems. -/

theorem tierMem_tierAdd_of (t : BloomTier) (u v : String)
    (h : tierMem t u = true) : tierMem (tierAdd t v) u = true := by
  simp only [tierMem, tierAdd, List.all_eq_true, List.contains, List.elem_eq_mem,
    decide_eq_true_eq, List.mem_append] at h ⊢
  intro x hx
  exact Or.inl (h x hx)

theorem tierMem_tierAdd_self (t : BloomTier) (u : String) :
    tierMem (tierAdd t u) u = true := by
  simp only [tierMem, tierAdd, List.all_eq_true, List.contains, List.elem_eq_mem,
    decide_eq_true_eq, List.mem_append]
  intro x hx
  exact Or.inr hx

theorem sbfMem_sbfAdd_of : ∀ (f : SBF) (u v : String),
    sbfMem f u = true → sbfMem (sbfAdd f v) u = true := by
  rintro ⟨tiers, cap, mk⟩ u v h
  cases tiers with
  | nil => simp [sbfMem] at h
  | cons t ts =>
    simp only [sbfMem, List.any_eq_true] at h
    obtain ⟨t0, ht0, hmem⟩ := h
    by_cases hc : t.count < cap
    · simp only [sbfAdd, hc, if_true, sbfMem, List.any_eq_true]
      rcases List.mem_cons.mp ht0 with rfl | hts
      · exact ⟨tierAdd t0 v, List.mem_cons_self _ _, tierMem_tierAdd_of _ _ _ hmem⟩
      · exact ⟨t0, List.mem_cons_of_mem _ hts, hmem⟩
    · simp only [sbfAdd, hc, if_false, sbfMem, List.any_eq_true]
      exact ⟨t0, List.mem_cons_of_mem _ ht0, hmem⟩

theorem sbfMem_sbfAdd_self : ∀ (f : SBF) (u : String),
    sbfMem (sbfAdd f u) u = true := by
  rintro ⟨tiers, cap, mk⟩ u
  cases tiers with
  | nil =>
    simp only [sbfAdd, sbfMem, List.any_eq_true]
    exact ⟨_, List.mem_cons_self _ _, tierMem_tierAdd_self _ _⟩
  | cons t ts =>
    by_cases hc : t.count < cap
    · simp only [sbfAdd, hc, if_true, sbfMem, List.any_eq_true]
      exact ⟨_, List.mem_cons_self _ _, tierMem_tierAdd_self _ _⟩
    · simp only [sbfAdd, hc, if_false, sbfMem, List.any_eq_true]
      exact ⟨_, List.mem_cons_self _ _, tierMem_tierAdd_self _ _⟩

theorem sbfMem_foldl_of (l : List (String × Option Bool)) (f : SBF) (u : String)
    (h : sbfMem f u = true) :
    sbfMem (l.foldl (fun acc p => sbfAdd acc p.1) f) u = true := by
  induction l generalizing f with
  | nil => exact h
  | cons p t ih => exact ih _ (sbfMem_sbfAdd_of _ _ _ h)

theorem sbfMem_foldl_self (l : List (String × Option Bool)) (f : SBF)
    (u : String) (a : Option Bool) (h : (u, a) ∈ l) :
    sbfMem (l.foldl (fun acc p => sbfAdd acc p.1) f) u = true := by
  induction l generalizing f with
  | nil => cases h
  | cons p t ih =>
    rcases List.mem_cons.mp h with rfl | ht
    · exact sbfMem_foldl_of t _ u (sbfMem_sbfAdd_self f u)
    · exact ih (sbfAdd f p.1) ht

/-- C5: membership soundness of the cache. For every per-tier hash family,
every tier capacity and every ledger snapshot, if is_url_visited answers
false for a URL on the cache rehydrated from that snapshot, then no record
for that URL was in the snapshot: the Bloom filter never loses an inserted
element, so the cache has no false negatives relative to the snapshot. -/
theorem C5_membership_soundness (cap : Nat) (mk : Nat → String → List Nat)
    (snapshot : List (String × Option Bool)) (u : String)
    (h : is_url_visited (buildVisitedCache cap mk snapshot) u = false) :
    ∀ a : Option Bool, (u, a) ∉ snapshot := by
  intro a hmem
  have := sbfMem_foldl_self snapshot ⟨[], cap, mk⟩ u a hmem
  rw [is_url_visited, buildVisitedCache] at h
  rw [this] at h
  cases h

/-- Witness for C5 at a concrete snapshot: with per-tier capacity 1 and the
string-length hash family, the cache built from records for "ab" and "cde"
answers false for "a", and indeed no record for "a" is in the snapshot. -/
theorem C5_membership_soundness_witness :
    is_url_visited
        (buildVisitedCache 1 (fun _ s => [s.length])
          [("ab", some true), ("cde", none)]) "a" = false ∧
      ("a", some true) ∉ [("ab", some true), ("cde", none)] :=
  ⟨by decide,
    C5_membership_soundness 1 (fun _ s => [s.length])
      [("ab", some true), ("cde", none)] "a" (by decide) (some true)⟩

/-- C1: the claim says every processed page (seed and dequeued alike)
enqueues exactly the intersection of the suggested set S with the observed
link set O. The seed page does (second conjunct). But the crawl loop tests
each suggested URL string for membership in the raw link-record list, and in
Python a string never compares equal to a link record, so every dequeued
page enqueues nothing (third conjunct): at the evaluated input the observed
links contain the single suggested URL, S cap O is that URL, yet the loop
filter returns the empty list (first conjunct). -/
theorem C1_loop_filter_drops_observed :
    loopFilter (Suggestion.many ["https://ex.com/a"]) w1Links = [] ∧
      seedFilter (Suggestion.many ["https://ex.com/a"]) w1Links =
        ["https://ex.com/a"] ∧
      ∀ (s : Suggestion) (links : List Link), loopFilter s links = [] := by
  refine ⟨rfl, by decide, ?_⟩
  intro s links
  cases s with
  | many l => simp [loopFilter, linksContains, linkEqStr]
  | one u => simp [loopFilter, linksContains, linkEqStr]
  | null => rfl

theorem hasKey_insertIgnore_of (l : List VisitedRow) (r : VisitedRow)
    (u d : String) (h : hasKey l u d = true) :
    hasKey (insertIgnore l r) u d = true := by
  unfold hasKey at h ⊢
  unfold insertIgnore
  split
  · exact h
  · simp only [List.any_append, h, Bool.true_or]

theorem hasKey_insertIgnore_self (l : List VisitedRow) (r : VisitedRow) :
    hasKey (insertIgnore l r) r.url r.domain = true := by
  unfold insertIgnore
  split
  · assumption
  · simp [hasKey]

theorem hasKey_applyBatch_of (batch : List (String × Option Bool))
    (l : List VisitedRow) (dm : String) (t : Nat)
    (u dd : String) (h : hasKey l u dd = true) :
    hasKey (applyBatch l dm t batch) u dd = true := by
  induction batch generalizing l with
  | nil => exact h
  | cons p tl ih => exact ih _ (hasKey_insertIgnore_of _ _ _ _ h)

theorem hasKey_applyBatch_mem (batch : List (String × Option Bool))
    (l : List VisitedRow) (dm : String) (t : Nat) (u : String)
    (a : Option Bool) (h : (u, a) ∈ batch) :
    hasKey (applyBatch l dm t batch) u dm = true := by
  induction batch generalizing l with
  | nil => cases h
  | cons p tl ih =>
    rcases List.mem_cons.mp h with rfl | ht
    · exact hasKey_applyBatch_of tl _ dm t u dm
        (hasKey_insertIgnore_self l ⟨u, dm, t, a⟩)
    · exact ih (insertIgnore l ⟨p.1, dm, t, p.2⟩) ht

theorem applyBatch_eq_of_keys (batch : List (String × Option Bool))
    (l : List VisitedRow) (dm : String) (t : Nat)
    (h : ∀ p ∈ batch, hasKey l p.1 dm = true) :
    applyBatch l dm t batch = l := by
  induction batch with
  | nil => rfl
  | cons p tl ih =>
    have hp : insertIgnore l ⟨p.1, dm, t, p.2⟩ = l := by
      unfold insertIgnore
      simp only [h p (List.mem_cons_self _ _), if_true]
    show applyBatch (insertIgnore l ⟨p.1, dm, t, p.2⟩) dm t tl = l
    rw [hp]
    exact ih (fun q hq => h q (List.mem_cons_of_mem _ hq))

/-- C6: recordVisited (add_visited_urls) is idempotent on the ledger. For
every ledger state, domain, pair of call timestamps, batch, and store
condition, applying the method a second time with the same batch leaves the
ledger exactly as after the first application, and a batch with its pairs
duplicated produces the same ledger as the plain batch: every insert
conflict-ignores on the (url, domain) key. -/
theorem C6_recordVisited_idempotent (f : Bool) (l : List VisitedRow)
    (d : String) (t1 t2 : Nat) (batch : List (String × Option Bool)) :
    (add_visited_urls f (add_visited_urls f l d t1 batch).1 d t2 batch).1 =
        (add_visited_urls f l d t1 batch).1 ∧
      (add_visited_urls f l d t1 (batch ++ batch)).1 =
        (add_visited_urls f l d t1 batch).1 := by
  unfold add_visited_urls storeInsertBatch
  rcases hb : batch with _ | ⟨p, tl⟩
  · simp
  · rw [← hb]
    have hne : batch.isEmpty = false := by rw [hb]; rfl
    have hne2 : (batch ++ batch).isEmpty = false := by
      rw [hb]; rfl
    cases f with
    | true => simp [hne, hne2]
    | false =>
      simp only [hne, hne2, Bool.false_eq_true, if_false, ite_false]
      constructor
      · exact applyBatch_eq_of_keys batch _ d t2
          (fun q hq => hasKey_applyBatch_mem batch l d t1 q.1 q.2 hq)
      · rw [applyBatch, List.foldl_append, ← applyBatch, ← applyBatch]
        exact applyBatch_eq_of_keys batch _ d t1
          (fun q hq => hasKey_applyBatch_mem batch l d t1 q.1 q.2 hq)

/-- C10: the ledger flush never propagates an exception. For every store
condition, ledger, domain, timestamp and batch: an empty batch returns
normally without touching the store; a failing store interaction is caught,
the method returns normally and the ledger is unchanged (the session's
newly-visited URLs are silently lost); a healthy store applies the
conflict-ignoring batch insert. -/
theorem C10_flush_never_raises (f : Bool) (l : List VisitedRow) (d : String)
    (now : Nat) (batch : List (String × Option Bool)) :
    (batch = [] → add_visited_urls f l d now batch = (l, false)) ∧
      (f = true → batch ≠ [] → add_visited_urls f l d now batch = (l, true)) ∧
      (f = false → batch ≠ [] →
        add_visited_urls f l d now batch = (applyBatch l d now batch, true)) := by
  refine ⟨?_, ?_, ?_⟩
  · intro h; subst h; rfl
  · intro hf hb
    subst hf
    unfold add_visited_urls storeInsertBatch
    simp [List.isEmpty_iff, hb]
  · intro hf hb
    subst hf
    unfold add_visited_urls storeInsertBatch
    simp [List.isEmpty_iff, hb]

/-- Witness for C10 at concrete inputs: a failing store with a non-empty
batch leaves the empty ledger unchanged while returning normally, having
touched the store. -/
theorem C10_flush_never_raises_witness :
    add_visited_urls true [] "ex.com" 0 [("https://ex.com/a", some true)] =
      ([], true) :=
  (C10_flush_never_raises true [] "ex.com" 0
    [("https://ex.com/a", some true)]).2.1 rfl (by decide)

theorem find?_cons_true {α : Type} (p : α → Bool) (a : α) (l : List α)
    (h : p a = true) : List.find? p (a :: l) = some a := by
  rw [List.find?_cons, h]

theorem find?_cons_false {α : Type} (p : α → Bool) (a : α) (l : List α)
    (h : p a = false) : List.find? p (a :: l) = List.find? p l := by
  rw [List.find?_cons, h]

theorem findWebsite_map_merge (ws : List WebsiteRow) (d : String)
    (p : ConfigPatch) (now : Nat) (r : WebsiteRow)
    (h : findWebsite ws d = some r) :
    findWebsite (ws.map (fun x => if x.url == d then mergeRow x p now else x)) d =
      some (mergeRow r p now) := by
  induction ws with
  | nil => cases h
  | cons a t ih =>
    unfold findWebsite at h ⊢
    simp only [List.map_cons]
    by_cases ha : (a.url == d) = true
    · rw [find?_cons_true (fun x => x.url == d) a t ha] at h
      injection h with h
      subst h
      rw [if_pos ha]
      exact find?_cons_true (fun x => x.url == d) (mergeRow a p now) _ ha
    · have ha' : (a.url == d) = false := by
        simp only [Bool.not_eq_true] at ha
        exact ha
      rw [find?_cons_false (fun x => x.url == d) a t ha'] at h
      rw [if_neg ha, find?_cons_false (fun x => x.url == d) a _ ha']
      exact ih h

theorem findWebsite_append_none (ws : List WebsiteRow) (nr : WebsiteRow)
    (d : String) (h : findWebsite ws d = none) (hnr : (nr.url == d) = true) :
    findWebsite (ws ++ [nr]) d = some nr := by
  unfold findWebsite at h ⊢
  rw [List.find?_append, h, find?_cons_true (fun x => x.url == d) nr [] hnr]
  rfl

/-- C7: merge frame property of the Site Config upsert. If a record for the
domain exists, the post-upsert record keeps every field for which the patch
is null and takes the patch value for every provided field (COALESCE merge);
if no record exists, the patch is inserted as a fresh row. -/
theorem C7_config_merge (ws : List WebsiteRow) (d : String) (p : ConfigPatch)
    (now : Nat) :
    (∀ r, findWebsite ws d = some r →
      findWebsite (add_website ws d p now) d = some (mergeRow r p now) ∧
        (p.login_url = none → (mergeRow r p now).login_url = r.login_url) ∧
        (∀ v, p.login_url = some v → (mergeRow r p now).login_url = some v) ∧
        (p.username = none → (mergeRow r p now).username = r.username) ∧
        (∀ v, p.username = some v → (mergeRow r p now).username = some v) ∧
        (p.password = none → (mergeRow r p now).password = r.password) ∧
        (∀ v, p.password = some v → (mergeRow r p now).password = some v) ∧
        (p.username_selector = none →
          (mergeRow r p now).username_selector = r.username_selector) ∧
        (∀ v, p.username_selector = some v →
          (mergeRow r p now).username_selector = some v) ∧
        (p.password_selector = none →
          (mergeRow r p now).password_selector = r.password_selector) ∧
        (∀ v, p.password_selector = some v →
          (mergeRow r p now).password_selector = some v) ∧
        (p.submit_button_selector = none →
          (mergeRow r p now).submit_button_selector = r.submit_button_selector) ∧
        (∀ v, p.submit_button_selector = some v →
          (mergeRow r p now).submit_button_selector = some v)) ∧
      (findWebsite ws d = none →
        findWebsite (add_website ws d p now) d = some (newRow d p now)) := by
  constructor
  · intro r h
    refine ⟨?_, ?_, ?_, ?_, ?_, ?_, ?_, ?_, ?_, ?_, ?_, ?_, ?_⟩
    · unfold add_website
      rw [h]
      exact findWebsite_map_merge ws d p now r h
    all_goals intros; simp_all [mergeRow, coalesce]
  · intro h
    unfold add_website
    rw [h]
    exact findWebsite_append_none ws _ d h (by simp [newRow])

/-- Witness for C7 at a concrete store: one stored row for "ex.com" and a
patch providing only login_url; the post-upsert row has the new login_url,
all other config fields unchanged, and a refreshed timestamp. -/
theorem C7_config_merge_witness :
    findWebsite
        (add_website
          [⟨"ex.com", some "lu", some "user", some "pw", some "s1", some "s2",
            some "s3", 0⟩]
          "ex.com" ⟨some "lu2", none, none, none, none, none⟩ 1)
        "ex.com" =
      some ⟨"ex.com", some "lu2", some "user", some "pw", some "s1", some "s2",
        some "s3", 1⟩ :=
  ((C7_config_merge
      [⟨"ex.com", some "lu", some "user", some "pw", some "s1", some "s2",
        some "s3", 0⟩]
      "ex.com" ⟨some "lu2", none, none, none, none, none⟩ 1).1
    ⟨"ex.com", some "lu", some "user", some "pw", some "s1", some "s2",
      some "s3", 0⟩ (by rfl)).1

/-- C8 counterexample: the caller explicitly provides login_url = "" (an
explicit value) while the store holds a non-empty login_url; the back-fill
overwrites the caller's value with the stored one, because the code tests
Python truthiness, under which the empty string counts as unset. -/
theorem C8_counterexample :
    (updateAttributesFromStoredValues
          ⟨some "", none, none, none, none, none⟩
          ⟨some "https://ex.com/login", none, none, none, none, none⟩).login_url =
        some "https://ex.com/login" ∧
      some "https://ex.com/login" ≠ some "" := by
  exact ⟨rfl, by decide⟩

/-- C8 (amended): a caller-provided NON-EMPTY value always wins; when the
caller's attribute is unset (None) or empty, a stored truthy value fills it
in, and otherwise the attribute is left as the caller had it. Stated for
each of the six credential/selector attributes. -/
theorem C8_backfill (self stored : ConfigPatch) :
    (truthyStr self.login_url = true →
        (updateAttributesFromStoredValues self stored).login_url = self.login_url) ∧
      (truthyStr self.login_url = false →
        (updateAttributesFromStoredValues self stored).login_url =
          (if truthyStr stored.login_url then stored.login_url else self.login_url)) ∧
      (truthyStr self.username = true →
        (updateAttributesFromStoredValues self stored).username = self.username) ∧
      (truthyStr self.username = false →
        (updateAttributesFromStoredValues self stored).username =
          (if truthyStr stored.username then stored.username else self.username)) ∧
      (truthyStr self.password = true →
        (updateAttributesFromStoredValues self stored).password = self.password) ∧
      (truthyStr self.password = false →
        (updateAttributesFromStoredValues self stored).password =
          (if truthyStr stored.password then stored.password else self.password)) ∧
      (truthyStr self.username_selector = true →
        (updateAttributesFromStoredValues self stored).username_selector =
          self.username_selector) ∧
      (truthyStr self.username_selector = false →
        (updateAttributesFromStoredValues self stored).username_selector =
          (if truthyStr stored.username_selector then stored.username_selector
            else self.username_selector)) ∧
      (truthyStr self.password_selector = true →
        (updateAttributesFromStoredValues self stored).password_selector =
          self.password_selector) ∧
      (truthyStr self.password_selector = false →
        (updateAttributesFromStoredValues self stored).password_selector =
          (if truthyStr stored.password_selector then stored.password_selector
            else self.password_selector)) ∧
      (truthyStr self.submit_button_selector = true →
        (updateAttributesFromStoredValues self stored).submit_button_selector =
          self.submit_button_selector) ∧
      (truthyStr self.submit_button_selector = false →
        (updateAttributesFromStoredValues self stored).submit_button_selector =
          (if truthyStr stored.submit_button_selector then
            stored.submit_button_selector else self.submit_button_selector)) := by
  refine ⟨?_, ?_, ?_, ?_, ?_, ?_, ?_, ?_, ?_, ?_, ?_, ?_⟩ <;>
    · intro h
      simp [updateAttributesFromStoredValues, backfillAttr, h]

/-- Witness for C8 at concrete attributes: the caller provided a non-empty
login_url, so the stored value does not overwrite it. -/
theorem C8_backfill_witness :
    (updateAttributesFromStoredValues
        ⟨some "mine", none, none, none, none, none⟩
        ⟨some "stored", some "su", none, none, none, none⟩).login_url =
      some "mine" :=
  (C8_backfill ⟨some "mine", none, none, none, none, none⟩
      ⟨some "stored", some "su", none, none, none, none⟩).1 (by decide)

/-- C9: an empty cookie set after the login form is submitted raises an
error that propagates out of crawler construction (first conjunct), whereas
login-URL or selector resolution failures only produce the anonymous
fallback and never raise (remaining conjuncts): a failed _initialize_login
yields a normal construction with logged_in = false, and a raised detection
exception makes _initialize_login return False rather than raise. -/
theorem C9_login_verification_fatal (e : LoginEnv) :
    (canAuthenticate e = true → initLogin e = true → e.cookies = [] →
        constructAuth e = Except.error "No session cookies found after login") ∧
      (canAuthenticate e = true → initLogin e = false →
        constructAuth e = Except.ok false) ∧
      (truthyStr e.login_url = false → e.detect_login_url_outcome = Res.err →
        initLogin e = false) ∧
      (truthyStr e.username_selector = false →
        e.detect_selectors_outcome = Res.err → initLogin e = false) := by
  refine ⟨?_, ?_, ?_, ?_⟩
  · intro h1 h2 h3
    simp [constructAuth, loginStep, verifySession, h1, h2, h3]
  · intro h1 h2
    simp [constructAuth, h1, h2]
  · intro hl hdet
    simp [initLogin, hl, hdet]
  · intro hu hdet
    by_cases hl : truthyStr e.login_url = true
    · cases hlu : e.login_url with
      | none => rw [hlu] at hl; cases hl
      | some s =>
        rw [hlu] at hl
        simp [initLogin, hlu, hl, hu, hdet]
    · cases hdo : e.detect_login_url_outcome with
      | ok v =>
        cases v with
        | none => simp [initLogin, hl, hdo]
        | some s => simp [initLogin, hl, hdo, hu, hdet]
      | err => simp [initLogin, hl, hdo]

/-- Witness for C9 at a concrete environment: credentials, login URL and all
three selectors provided, but no cookies after submission; construction
aborts with the verification error. -/
theorem C9_login_verification_fatal_witness :
    constructAuth
        ⟨some "lu", some "u", some "p", some "a", some "b", some "c",
          Res.err, Res.err, []⟩ =
      Except.error "No session cookies found after login" :=
  (C9_login_verification_fatal
      ⟨some "lu", some "u", some "p", some "a", some "b", some "c",
        Res.err, Res.err, []⟩).1 (by decide) (by decide) rfl

theorem crawlStep_len_le (w : World) (u : String) (st : CrawlState) :
    (crawlStep w u st).responses.length ≤ st.responses.length + 1 := by
  cases hv : w.visited u with
  | true => simp [crawlStep, hv]
  | false =>
    rcases hc : w.classify u with o | _
    · rcases o with _ | r <;> rcases hs : w.suggest u with s | _ <;>
        simp [crawlStep, hv, hc, hs]
    · rcases hs : w.suggest u with s | _ <;> simp [crawlStep, hv, hc, hs]

theorem crawlStep_len_ge (w : World) (u : String) (st : CrawlState) :
    st.responses.length ≤ (crawlStep w u st).responses.length := by
  cases hv : w.visited u with
  | true => simp [crawlStep, hv]
  | false =>
    rcases hc : w.classify u with o | _
    · rcases o with _ | r <;> rcases hs : w.suggest u with s | _ <;>
        simp [crawlStep, hv, hc, hs]
    · rcases hs : w.suggest u with s | _ <;> simp [crawlStep, hv, hc, hs]

theorem crawlLoop_len_ge (w : World) (Q : Nat) : ∀ (fuel : Nat) (st : CrawlState),
    st.responses.length ≤ (crawlLoop w Q fuel st).responses.length := by
  intro fuel
  induction fuel with
  | zero => intro st; exact Nat.le_refl _
  | succ n ih =>
    rintro ⟨tv, rs, nv⟩
    cases tv with
    | nil => simp [crawlLoop]
    | cons u rest =>
      by_cases hq : rs.length < Q
      · have h1 := crawlStep_len_ge w u ⟨rest, rs, nv⟩
        have h2 := ih (crawlStep w u ⟨rest, rs, nv⟩)
        simp only [crawlLoop, hq, if_true]
        exact le_trans h1 h2
      · simp [crawlLoop, hq]

theorem crawlLoop_quota (w : World) : ∀ (fuel Q Qbig : Nat) (st : CrawlState),
    st.responses.length ≤ Q → Q ≤ Qbig →
    (crawlLoop w Q fuel st).responses.length =
      min (crawlLoop w Qbig fuel st).responses.length Q := by
  intro fuel
  induction fuel with
  | zero =>
    intro Q Qbig st h _
    exact (min_eq_left h).symm
  | succ n ih =>
    rintro Q Qbig ⟨tv, rs, nv⟩ h hle
    have h' : rs.length ≤ Q := h
    cases tv with
    | nil => simpa [crawlLoop] using (min_eq_left h').symm
    | cons u rest =>
      by_cases hq : rs.length < Q
      · have hq2 : rs.length < Qbig := lt_of_lt_of_le hq hle
        have hst : (crawlStep w u ⟨rest, rs, nv⟩).responses.length ≤ Q := by
          have hb := crawlStep_len_le w u ⟨rest, rs, nv⟩
          have hb2 : (crawlStep w u ⟨rest, rs, nv⟩).responses.length ≤
              rs.length + 1 := hb
          omega
        simp only [crawlLoop, hq, hq2, if_true]
        exact ih Q Qbig _ hst hle
      · have hEq : rs.length = Q := Nat.le_antisymm h' (Nat.not_lt.mp hq)
        by_cases hq2 : rs.length < Qbig
        · have hge : Q ≤
              (crawlLoop w Qbig n (crawlStep w u ⟨rest, rs, nv⟩)).responses.length := by
            have h1 : rs.length ≤ (crawlStep w u ⟨rest, rs, nv⟩).responses.length :=
              crawlStep_len_ge w u ⟨rest, rs, nv⟩
            have h2 := crawlLoop_len_ge w Qbig n (crawlStep w u ⟨rest, rs, nv⟩)
            omega
          simp only [crawlLoop, hq, hq2, if_true, if_false]
          rw [min_eq_right hge]
          exact hEq
        · simp only [crawlLoop, hq, hq2, if_false]
          exact (min_eq_left h').symm

/-- C2 (amended): for every session world, seed URL, iteration bound, and
quotas 1 <= Q <= Qbig, if scrape() completes normally with quota Q yielding
result list stQ.responses, and with the larger quota Qbig yielding
stBig.responses (taking Qbig large enough that the quota never binds turns
stBig.responses into the achievable result list), then the Q-bounded result
list has length min(achievable, Q): the quota bounds successfully returned
results, and skipped or failed URLs never count against it. The original
claim fails at Q = 0 (see the counterexample): the seed page's result is
appended before the quota is first checked. -/
theorem C2_quota_bound (w : World) (root : String) (Q Qbig fuel : Nat)
    (stQ stBig : CrawlState) (hQ : 1 ≤ Q) (hle : Q ≤ Qbig)
    (h1 : scrape w root Q fuel = Except.ok stQ)
    (h2 : scrape w root Qbig fuel = Except.ok stBig) :
    stQ.responses.length = min stBig.responses.length Q := by
  unfold scrape at h1 h2
  cases hs : w.suggest root with
  | err => rw [hs] at h1; cases h1
  | ok s0 =>
    rw [hs] at h1 h2
    cases hc : w.classify root with
    | err => rw [hc] at h1; cases h1
    | ok resp0 =>
      rw [hc] at h1 h2
      injection h1 with h1
      injection h2 with h2
      subst h1
      subst h2
      exact crawlLoop_quota w fuel Q Qbig _ hQ hle

/-- Counterexample for C2 as stated: with quota Q = 0 the result list still
has one entry (the seed's), while the claimed length min(achievable, 0) is
0; the lifted-quota run shows one entry is achievable in this world. -/
theorem C2_counterexample :
    (scrape w2c "root" 0 5).map (fun st => st.responses.length) = Except.ok 1 ∧
      (scrape w2c "root" 7 5).map (fun st => st.responses.length) = Except.ok 1 ∧
      min 1 0 = 0 :=
  ⟨rfl, rfl, rfl⟩

/-- Witness for C2 at a concrete world: the seed suggests one observed link
"a"; with Q = 1 the loop stops before dequeuing it (one result), with
Qbig = 3 the achievable list has two results, and 1 = min 2 1. -/
theorem C2_quota_bound_witness :
    (CrawlState.mk ["a"] [("root", some sampleResp)]
        [("root", some true)]).responses.length =
      min (CrawlState.mk [] [("root", some sampleResp), ("a", some sampleResp)]
        [("root", some true), ("a", some true)]).responses.length 1 :=
  C2_quota_bound w2W "root" 1 3 3 _ _ (by decide) (by decide) (by rfl) (by rfl)

/-- C3 (amended): behaviour of one loop iteration on an unvisited URL. If
the classification try-block raises, the loop continues but the URL is NOT
added to the session's visited-accumulator (and yields no result); if
classification returns a falsy response without raising, the URL is added
with a null classification and yields no result; on a truthy response the
URL is added with its classification and appended to the results. The
original claim (URL always accumulated, null on failure) fails in the
exception case, see the counterexample. -/
theorem C3_failure_handling (w : World) (u : String) (st : CrawlState)
    (hv : w.visited u = false) :
    (w.classify u = Res.err →
        (crawlStep w u st).newly_visited = st.newly_visited ∧
          (crawlStep w u st).responses = st.responses) ∧
      (w.classify u = Res.ok none →
        (crawlStep w u st).newly_visited = st.newly_visited ++ [(u, none)] ∧
          (crawlStep w u st).responses = st.responses) ∧
      (∀ r, w.classify u = Res.ok (some r) →
        (crawlStep w u st).newly_visited =
            st.newly_visited ++ [(u, some r.classification)] ∧
          (crawlStep w u st).responses = st.responses ++ [(u, some r)]) := by
  refine ⟨?_, ?_, ?_⟩
  · intro h
    rcases hs : w.suggest u with s | _ <;> simp [crawlStep, hv, h, hs]
  · intro h
    rcases hs : w.suggest u with s | _ <;> simp [crawlStep, hv, h, hs]
  · intro r h
    rcases hs : w.suggest u with s | _ <;> simp [crawlStep, hv, h, hs]

/-- Counterexample for C3 as stated: page "a" fails classification with an
exception, page "b" succeeds. The loop continues past "a" (first conjunct:
"b" was processed), but "a" appears nowhere in the visited-accumulator
(second conjunct), so it is absent from the end-of-session ledger flush
instead of being recorded with a null classification. -/
theorem C3_counterexample :
    crawlLoop w3c 5 5 ⟨["a", "b"], [], []⟩ =
        ⟨[], [("b", some sampleResp)], [("b", some true)]⟩ ∧
      ("a", (none : Option Bool)) ∉
        (crawlLoop w3c 5 5 ⟨["a", "b"], [], []⟩).newly_visited := by
  refine ⟨rfl, ?_⟩
  decide

/-- Witness for C3 at a concrete world: page "a" raises during
classification; the iteration leaves the visited-accumulator empty. -/
theorem C3_failure_handling_witness :
    (crawlStep w3c "a" ⟨[], [], []⟩).newly_visited = [] :=
  ((C3_failure_handling w3c "a" ⟨[], [], []⟩ rfl).1 (by rfl)).1

/-- C4 (amended): the membership cache is NOT grown during the session: the
crawl consults a fixed visited predicate (the filter built at construction)
and nothing is ever added to it inside scrape(), so a URL that the snapshot
does not mark visited is re-processed every time it is dequeued in the same
session. A frontier containing the same unvisited URL twice yields that URL
twice in the results and twice in the visited-accumulator; deduplication
happens only at the ledger flush through the conflict-ignoring insert. -/
theorem C4_cache_not_grown (w : World) (u : String) (r : ArticleResp) (Q : Nat)
    (hv : w.visited u = false) (hc : w.classify u = Res.ok (some r))
    (hs : w.suggest u = Res.ok Suggestion.null) (hQ : 2 ≤ Q) :
    crawlLoop w Q 2 ⟨[u, u], [], []⟩ =
      ⟨[], [(u, some r), (u, some r)],
        [(u, some r.classification), (u, some r.classification)]⟩ := by
  have h0 : (0 : Nat) < Q := by omega
  have h1 : (1 : Nat) < Q := by omega
  simp [crawlLoop, crawlStep, loopFilter, hv, hc, hs, h0, h1]

/-- Counterexample for C4 as stated: the URL "a" is dequeued twice in the
same session; the claim says the second dequeue is skipped by the visited
check (one result), but the run processes it twice. -/
theorem C4_counterexample :
    (crawlLoop w4c 5 5 ⟨["a", "a"], [], []⟩).responses =
        [("a", some sampleResp), ("a", some sampleResp)] ∧
      (crawlLoop w4c 5 5 ⟨["a", "a"], [], []⟩).responses.length ≠ 1 := by
  refine ⟨rfl, ?_⟩
  decide

/-- Witness for C4 at a concrete world and quota 2: the duplicated frontier
entry is processed twice. -/
theorem C4_cache_not_grown_witness :
    crawlLoop w4c 2 2 ⟨["a", "a"], [], []⟩ =
      ⟨[], [("a", some sampleResp), ("a", some sampleResp)],
        [("a", some true), ("a", some true)]⟩ :=
  C4_cache_not_grown w4c "a" sampleResp 2 rfl rfl rfl (by decide)
